import Mathlib

set_option maxRecDepth 8000
set_option linter.unusedVariables false

/-!
Verification of the compliance-copilot text-analysis core.

This file gives a shallow embedding of the repository's core routines:

* src/scoring.py  — keyword risk scoring (RISK_KEYWORDS, score_risk, get_risk_level)
* src/safety.py   — PII redaction (PII_PATTERNS, mask_pii) and input
                    validation (validate_input_safety)
* src/llm.py      — the deterministic MockLLM backend and the get_llm factory

Python floats are IEEE-754 binary64 values.  Every float this program
computes (the weight literals of RISK_KEYWORDS, the threshold literals of
get_risk_level, and the running totals of score_risk, all lying in [0, 16))
is an integer multiple of 2 ^ (-56), so floats are embedded exactly as
integers in units of 2 ^ (-56): the literal 1.0 is the integer 2 ^ 56, the
literal 0.5 is 2 ^ 55, and each float addition is an exact integer addition
followed by an explicit round-to-nearest-even (flZ) to the 53-bit
significand grid of the result's binade.  This makes the accumulated scores
bit-faithful to CPython.  Python's regular-expression engine (leftmost
match, backtracking with greedy quantifiers and left-preferring
alternation) is embedded as a continuation-passing matcher over List Char,
and re.sub as a left-to-right scan replacing each non-overlapping leftmost
match.  Fallible routines (which raise ValueError in Python) return Option.
-/

/-! ## IEEE-754 binary64 arithmetic in units of 2 ^ (-56) -/

/-- Round the fraction a / b (with b > 0) to the nearest natural number,
ties to even. -/
def rneF (a b : ℕ) : ℕ :=
  let q := a / b
  let r := a % b
  if 2 * r < b then q
  else if b < 2 * r then q + 1
  else if q % 2 = 0 then q else q + 1

/-- Round n to the nearest multiple of 2 ^ s, ties to the even multiple. -/
def rne2 (n s : ℕ) : ℕ :=
  let q := n / 2 ^ s
  let r := n % 2 ^ s
  if 2 * r < 2 ^ s then q * 2 ^ s
  else if 2 ^ s < 2 * r then (q + 1) * 2 ^ s
  else if q % 2 = 0 then q * 2 ^ s else (q + 1) * 2 ^ s

/-- Round a nonnegative value k (in units of 2 ^ (-56)) to the nearest
binary64 value: values below 2 ^ 53 units (i.e. below 1/8) sit on a grid at
least as fine as one unit and are exact; above that, each binade doubling
halves the significand grid, so round to the corresponding multiple of a
power of two, ties to even.  Covers the binades up to [8, 16), beyond every
value of this development. -/
def flN (n : ℕ) : ℕ :=
  if n < 2 ^ 53 then n
  else if n < 2 ^ 54 then rne2 n 1
  else if n < 2 ^ 55 then rne2 n 2
  else if n < 2 ^ 56 then rne2 n 3
  else if n < 2 ^ 57 then rne2 n 4
  else if n < 2 ^ 58 then rne2 n 5
  else if n < 2 ^ 59 then rne2 n 6
  else if n < 2 ^ 60 then rne2 n 7
  else rne2 n 8

/-- The result of a Python float addition whose exact value is k units of
2 ^ (-56): nonpositive values are returned unchanged (only 0 occurs), and
positive values are rounded to the nearest binary64. -/
def flZ (k : ℤ) : ℤ :=
  if k ≤ 0 then k else (flN k.toNat : ℤ)

/-- The binary64 value denoted by the decimal literal a / b of the Python
source (for 1/16 ≤ a / b < 2), in units of 2 ^ (-56): locate the binade by
a comparison ladder, round the scaled significand to 53 bits (ties to
even), and rescale. -/
def dbl (a b : ℕ) : ℤ :=
  if 8 * a < b then (rneF (a * 2 ^ 56) b : ℤ)
  else if 4 * a < b then (rneF (a * 2 ^ 55) b : ℤ) * 2
  else if 2 * a < b then (rneF (a * 2 ^ 54) b : ℤ) * 4
  else if a < b then (rneF (a * 2 ^ 53) b : ℤ) * 8
  else (rneF (a * 2 ^ 52) b : ℤ) * 16

/-! ## scoring.py -/

/-- The RISK_KEYWORDS table from src/scoring.py: (keyword, weight, category),
in source order.  Each weight is the binary64 value of the decimal literal
in the source (dbl 6 10 embeds the literal 0.6, and so on), in units of
2 ^ (-56). -/
def RISK_KEYWORDS : List (String × ℤ × String) :=
  [ ("critical", dbl 6 10, "severity"),
    ("breach", dbl 6 10, "security"),
    ("vulnerability", dbl 5 10, "security"),
    ("exploit", dbl 5 10, "security"),
    ("injection", dbl 5 10, "security"),
    ("secret", dbl 5 10, "security"),
    ("exposed", dbl 5 10, "security"),
    ("leak", dbl 5 10, "security"),
    ("unauthorized", dbl 4 10, "access"),
    ("privilege", dbl 3 10, "access"),
    ("authentication", dbl 3 10, "access"),
    ("credential", dbl 4 10, "security"),
    ("token", dbl 3 10, "security"),
    ("compliance", dbl 3 10, "compliance"),
    ("gdpr", dbl 3 10, "compliance"),
    ("pii", dbl 4 10, "compliance"),
    ("hipaa", dbl 3 10, "compliance"),
    ("rotate", dbl 2 10, "remediation"),
    ("patch", dbl 2 10, "remediation"),
    ("update", dbl 1 10, "remediation"),
    ("fix", dbl 1 10, "remediation"),
    ("production", dbl 3 10, "environment"),
    ("database", dbl 2 10, "infrastructure"),
    ("deletion", dbl 4 10, "data"),
    ("data loss", dbl 5 10, "data") ]

/-- Boolean test that the list n is a prefix of the list h
(character-by-character). -/
def startsWithL : List Char → List Char → Bool
  | [], _ => true
  | _ :: _, [] => false
  | a :: as, b :: bs => a = b && startsWithL as bs

/-- Python's substring containment n in h: n occurs contiguously in h. -/
def containsSub (n : List Char) : List Char → Bool
  | [] => n.isEmpty
  | c :: cs => startsWithL n (c :: cs) || containsSub n cs

/-- The running total built by the loop in score_risk: lower-case the
summary once, then fold over RISK_KEYWORDS in table order, adding the
weight of every rule whose keyword is a substring (a float addition, hence
rounded by flZ). -/
def riskTotal (summary : String) : ℤ :=
  let lower := summary.data.map Char.toLower
  RISK_KEYWORDS.foldl
    (fun acc kw => if containsSub kw.1.data lower then flZ (acc + kw.2.1) else acc) 0

/-- The list matched_keywords built by score_risk, in table order. -/
def matched_keywords (summary : String) : List String :=
  let lower := summary.data.map Char.toLower
  (RISK_KEYWORDS.filter (fun kw => containsSub kw.1.data lower)).map (fun kw => kw.1)

/-- score_risk from src/scoring.py.  Raising ValueError on a falsy (empty)
summary is modelled as none; otherwise the score is min(total, 1.0), in
units of 2 ^ (-56) (so 1.0 is dbl 1 1 = 2 ^ 56). -/
def score_risk (summary : String) : Option ℤ :=
  if summary = "" then none
  else some (min (riskTotal summary) (dbl 1 1))

/-- get_risk_level from src/scoring.py.  The threshold literals 0.7, 0.5,
0.3 denote their binary64 values, and the comparisons are evaluated
high-to-low with the first satisfied winning. -/
def get_risk_level (score : ℤ) : String :=
  if dbl 7 10 ≤ score then "critical"
  else if dbl 5 10 ≤ score then "high"
  else if dbl 3 10 ≤ score then "medium"
  else "low"

/-! ## A backtracking regular-expression engine (Python re semantics)

The patterns of safety.py use literals, character classes, the word-boundary
assertion, greedy quantifiers and alternation.  Python's re module returns,
at the leftmost feasible start position, the match the backtracking search
finds first, where greedy quantifiers try longer repetitions first and
alternation tries its left branch first.  matchO is a continuation-passing
matcher with exactly that preference order; a fuel argument (plain depth
counter) makes the recursion structural. -/

/-- Regular-expression syntax: empty string, single-character class,
concatenation, alternation (left branch preferred), greedy Kleene star, and
the word-boundary assertion of Python's backslash-b. -/
inductive Rx where
  | eps
  | cls (f : Char → Bool)
  | seq (a b : Rx)
  | alt (a b : Rx)
  | star (a : Rx)
  | wb

/-- Python's word characters (ASCII): letters, digits, underscore. -/
def wordCharB (c : Char) : Bool :=
  c.isAlphanum || c = '_'

/-- Word-ness of an optional character (none at the ends of the text). -/
def isWordO : Option Char → Bool
  | none => false
  | some c => wordCharB c

/-- Python's whitespace class (ASCII): space, tab, newline, carriage
return, vertical tab, form feed. -/
def pySpace (c : Char) : Bool :=
  c = ' ' || c = '\t' || c = '\n' || c = '\r' || c.toNat = 11 || c.toNat = 12

/-- The backtracking matcher.  matchO fuel r prev s k attempts to match r
at the start of s (prev is the character just before s, for word
boundaries) and passes the suffix after each candidate match to the
continuation k in backtracking preference order, returning the first
success.  Greedy star tries one more repetition before stopping;
alternation tries the left branch first. -/
def matchO : ℕ → Rx → Option Char → List Char → (Option Char → List Char → Option (List Char)) →
    Option (List Char)
  | 0, _, _, _, _ => none
  | _ + 1, .eps, prev, s, k => k prev s
  | _ + 1, .wb, prev, s, k =>
      if isWordO prev != isWordO s.head? then k prev s else none
  | _ + 1, .cls f, _, s, k =>
      match s with
      | [] => none
      | c :: cs => if f c then k (some c) cs else none
  | fuel + 1, .seq a b, prev, s, k =>
      matchO fuel a prev s (fun p2 s2 => matchO fuel b p2 s2 k)
  | fuel + 1, .alt a b, prev, s, k =>
      (matchO fuel a prev s k).orElse (fun _ => matchO fuel b prev s k)
  | fuel + 1, .star a, prev, s, k =>
      (matchO fuel a prev s (fun p2 s2 => matchO fuel (.star a) p2 s2 k)).orElse
        (fun _ => k prev s)

/-- Attempt a match of r anchored at the start of s; on success return the
suffix after the preferred match.  The fuel bounds the backtracking depth,
which is linear in the text length plus the pattern size; 3n + 600 is a
safe overapproximation for every pattern of safety.py. -/
def tryMatchAt (r : Rx) (prev : Option Char) (s : List Char) : Option (List Char) :=
  matchO (3 * s.length + 600) r prev s (fun _ rest => some rest)

/-- Does r match anywhere in the text (at or after the position whose
preceding character is prev)?  This is Python's re.search viewed as a
Boolean. -/
def existsMatch (r : Rx) : Option Char → List Char → Bool
  | prev, [] => (tryMatchAt r prev []).isSome
  | prev, c :: cs => (tryMatchAt r prev (c :: cs)).isSome || existsMatch r (some c) cs

/-- One step of Python's re.sub scan: try the pattern at the current
position; on a match emit the replacement and continue after the matched
text (the character preceding the continuation is the last matched
character of the original text), otherwise keep one character and move
on. -/
def scanSub (r : Rx) (repl : List Char) : ℕ → Option Char → List Char → List Char
  | 0, _, s => s
  | fuel + 1, prev, s =>
      match tryMatchAt r prev s with
      | some rest =>
          let matched := s.take (s.length - rest.length)
          repl ++ scanSub r repl fuel ((matched.reverse.head?).orElse (fun _ => prev)) rest
      | none =>
          match s with
          | [] => []
          | c :: cs => c :: scanSub r repl fuel (some c) cs

/-- Python's re.sub: replace every non-overlapping leftmost match of r in s
by repl.  Every pattern of safety.py matches at least one character, so at
most length-many scan steps occur. -/
def subAll (r : Rx) (repl : List Char) (s : List Char) : List Char :=
  scanSub r repl (s.length + 1) none s

/-! ### The patterns of safety.py -/

/-- Concatenation of a list of patterns. -/
def rcat (l : List Rx) : Rx :=
  l.foldr Rx.seq Rx.eps

/-- A literal character (case-sensitive). -/
def lch (c : Char) : Rx :=
  Rx.cls (fun x => x = c)

/-- A literal character under re.IGNORECASE (c given in lowercase). -/
def ich (c : Char) : Rx :=
  Rx.cls (fun x => x.toLower = c)

/-- A case-sensitive literal string. -/
def lstr (s : String) : Rx :=
  rcat (s.data.map lch)

/-- A case-insensitive literal string (given in lowercase). -/
def istr (s : String) : Rx :=
  rcat (s.data.map ich)

/-- Exactly n repetitions (Python's brace-n quantifier on a class). -/
def repN (n : ℕ) (r : Rx) : Rx :=
  rcat (List.replicate n r)

/-- At least n repetitions, greedy (Python's brace-n-comma quantifier). -/
def atLeast (n : ℕ) (r : Rx) : Rx :=
  Rx.seq (repN n r) (Rx.star r)

/-- Zero or one, greedy (Python's question-mark quantifier). -/
def optR (r : Rx) : Rx :=
  Rx.alt r Rx.eps

/-- One to three repetitions, greedy longest-first (Python's brace-1-3
quantifier, as in the IP-address octets). -/
def rep1to3 (r : Rx) : Rx :=
  Rx.seq r (Rx.alt (Rx.seq r (optR r)) Rx.eps)

/-- The digit class backslash-d (ASCII). -/
def digit : Rx :=
  Rx.cls Char.isDigit

/-- The whitespace class backslash-s. -/
def spaceC : Rx :=
  Rx.cls pySpace

/-- An optional single quote or double quote, as in the key/password
patterns. -/
def quoteC : Rx :=
  Rx.cls (fun c => c = Char.ofNat 39 || c = Char.ofNat 34)

/-- The class of a colon or equals sign. -/
def colonEq : Rx :=
  Rx.cls (fun c => c = ':' || c = '=')

/-- An optional underscore or dash, as in api underscore-or-dash key. -/
def underDash : Rx :=
  optR (Rx.cls (fun c => c = '_' || c = '-'))

/-- The class A-Za-z0-9 dash underscore of the api/secret key patterns. -/
def keyChar : Rx :=
  Rx.cls (fun c => c.isAlphanum || c = '-' || c = '_')

/-- The class A-Za-z0-9 dash underscore dot of the token patterns. -/
def tokChar : Rx :=
  Rx.cls (fun c => c.isAlphanum || c = '-' || c = '_' || c = '.')

/-- SSN pattern: word boundary, three digits, dash, two digits, dash, four
digits, word boundary. -/
def patSSN : Rx :=
  rcat [Rx.wb, repN 3 digit, lch '-', repN 2 digit, lch '-', repN 4 digit, Rx.wb]

/-- Nine consecutive digits between word boundaries. -/
def patSSN9 : Rx :=
  rcat [Rx.wb, repN 9 digit, Rx.wb]

/-- Credit-card pattern: four groups of four digits, optionally separated
by a dash or space, between word boundaries. -/
def patCC : Rx :=
  rcat [Rx.wb, repN 4 digit, optR (Rx.cls (fun c => c = '-' || c = ' ')),
    repN 4 digit, optR (Rx.cls (fun c => c = '-' || c = ' ')),
    repN 4 digit, optR (Rx.cls (fun c => c = '-' || c = ' ')),
    repN 4 digit, Rx.wb]

/-- API-key pattern (case-insensitive): api key or apikey, optional
whitespace, colon or equals, optional whitespace, optional quote, sixteen
or more key characters, optional quote. -/
def patAPIKey : Rx :=
  rcat [Rx.alt (rcat [istr "api", underDash, istr "key"]) (istr "apikey"),
    Rx.star spaceC, colonEq, Rx.star spaceC, optR quoteC, atLeast 16 keyChar, optR quoteC]

/-- Secret-key pattern, same shape as the API-key pattern. -/
def patSecretKey : Rx :=
  rcat [Rx.alt (rcat [istr "secret", underDash, istr "key"]) (istr "secretkey"),
    Rx.star spaceC, colonEq, Rx.star spaceC, optR quoteC, atLeast 16 keyChar, optR quoteC]

/-- Access-token pattern, with the dotted token class. -/
def patAccessToken : Rx :=
  rcat [Rx.alt (rcat [istr "access", underDash, istr "token"]) (istr "accesstoken"),
    Rx.star spaceC, colonEq, Rx.star spaceC, optR quoteC, atLeast 16 tokChar, optR quoteC]

/-- Bearer-token pattern: the word bearer, whitespace, sixteen or more
token characters. -/
def patBearer : Rx :=
  rcat [istr "bearer", spaceC, Rx.star spaceC, atLeast 16 tokChar]

/-- AWS access-key pattern (case-sensitive): AKIA then sixteen digits or
uppercase letters. -/
def patAWSAccess : Rx :=
  rcat [lstr "AKIA", repN 16 (Rx.cls (fun c => c.isDigit || c.isUpper))]

/-- AWS secret-key pattern (case-insensitive). -/
def patAWSSecret : Rx :=
  rcat [istr "aws", underDash, istr "secret", underDash, istr "access", underDash,
    istr "key", optR quoteC, Rx.star spaceC, colonEq, Rx.star spaceC, optR quoteC,
    repN 40 (Rx.cls (fun c => c.isAlphanum || c = '/' || c = '+' || c = '=')),
    optR quoteC]

/-- Email pattern.  The source's trailing class is written A-Z pipe a-z, so
it also admits the pipe character; the embedding keeps that faithfully. -/
def patEmail : Rx :=
  rcat [Rx.wb,
    atLeast 1 (Rx.cls (fun c => c.isAlphanum || c = '.' || c = '_' || c = '%' || c = '+' || c = '-')),
    lch '@',
    atLeast 1 (Rx.cls (fun c => c.isAlphanum || c = '.' || c = '-')),
    lch '.',
    atLeast 2 (Rx.cls (fun c => c.isAlpha || c = '|')),
    Rx.wb]

/-- Phone pattern: optional country code, optional parenthesis, three
digits, optional separator, three digits, optional separator, four digits,
between word boundaries. -/
def patPhone : Rx :=
  rcat [Rx.wb,
    optR (rcat [optR (lch '+'), lch '1', optR (Rx.cls (fun c => c = '-' || c = '.'))]),
    optR (lch '('), repN 3 digit, optR (lch ')'),
    optR (Rx.cls (fun c => c = '-' || c = '.' || pySpace c)), repN 3 digit,
    optR (Rx.cls (fun c => c = '-' || c = '.' || pySpace c)), repN 4 digit, Rx.wb]

/-- Private-IP pattern for the 10.x.x.x range. -/
def patIP10 : Rx :=
  rcat [Rx.wb, lstr "10.", rep1to3 digit, lch '.', rep1to3 digit, lch '.', rep1to3 digit, Rx.wb]

/-- Private-IP pattern for the 172.16-31.x.x range. -/
def patIP172 : Rx :=
  rcat [Rx.wb, lstr "172.",
    Rx.alt (Rx.seq (lch '1') (Rx.cls (fun c => c = '6' || c = '7' || c = '8' || c = '9')))
      (Rx.alt (Rx.seq (lch '2') digit)
        (Rx.seq (lch '3') (Rx.cls (fun c => c = '0' || c = '1')))),
    lch '.', rep1to3 digit, lch '.', rep1to3 digit, Rx.wb]

/-- Private-IP pattern for the 192.168.x.x range. -/
def patIP192 : Rx :=
  rcat [Rx.wb, lstr "192.168.", rep1to3 digit, lch '.', rep1to3 digit, Rx.wb]

/-- Password pattern (case-insensitive): password, passwd or pwd, optional
whitespace, colon or equals, optional whitespace, optional quote, eight or
more characters that are not whitespace or quotes, optional quote. -/
def patPassword : Rx :=
  rcat [Rx.alt (istr "password") (Rx.alt (istr "passwd") (istr "pwd")),
    Rx.star spaceC, colonEq, Rx.star spaceC, optR quoteC,
    atLeast 8 (Rx.cls (fun c => !(pySpace c) && !(c = Char.ofNat 39) && !(c = Char.ofNat 34))),
    optR quoteC]

/-- The PII_PATTERNS table from src/safety.py: (compiled pattern, label),
in source order. -/
def PII_PATTERNS : List (Rx × String) :=
  [ (patSSN, "SSN"),
    (patSSN9, "SSN_NO_DASH"),
    (patCC, "CREDIT_CARD"),
    (patAPIKey, "API_KEY"),
    (patSecretKey, "SECRET_KEY"),
    (patAccessToken, "ACCESS_TOKEN"),
    (patBearer, "BEARER_TOKEN"),
    (patAWSAccess, "AWS_ACCESS_KEY"),
    (patAWSSecret, "AWS_SECRET_KEY"),
    (patEmail, "EMAIL"),
    (patPhone, "PHONE"),
    (patIP10, "PRIVATE_IP"),
    (patIP172, "PRIVATE_IP"),
    (patIP192, "PRIVATE_IP"),
    (patPassword, "PASSWORD") ]

/-- The replacement marker: [REDACTED] or, when keep_patterns is set,
[REDACTED:LABEL]. -/
def redactionMarker (label : String) (keep : Bool) : List Char :=
  if keep then ("[REDACTED:" ++ label ++ "]").data else "[REDACTED]".data

/-- mask_pii from src/safety.py.  Raising ValueError on a falsy (empty)
text is modelled as none; otherwise each pattern is applied by re.sub in
table order to the already partially redacted text.  (The source first
calls findall to count redactions for logging and only then calls sub;
a sub with no matches leaves the text unchanged, so the guarded and
unguarded forms agree on the returned text.) -/
def mask_pii (text : String) (keep_patterns : Bool := false) : Option String :=
  if text = "" then none
  else some (String.mk (PII_PATTERNS.foldl
    (fun acc pr => subAll pr.1 (redactionMarker pr.2 keep_patterns) acc) text.data))

/-- The XSS rule of validate_input_safety: case-insensitive search for a
script-tag opening. -/
def patScript : Rx :=
  istr "<script"

/-- The JavaScript-injection rule: case-insensitive search for the
javascript URI scheme. -/
def patJs : Rx :=
  istr "javascript:"

/-- The SQL-injection rule: union-select or drop-table, case-insensitive,
with one or more whitespace characters between the words. -/
def patSql : Rx :=
  Rx.alt (rcat [istr "union", spaceC, Rx.star spaceC, istr "select"])
    (rcat [istr "drop", spaceC, Rx.star spaceC, istr "table"])

/-- re.search as a Boolean over a whole text. -/
def reSearch (r : Rx) (s : List Char) : Bool :=
  existsMatch r none s

/-- The suspicious_patterns table of validate_input_safety, in source
order. -/
def suspicious_patterns : List (Rx × String) :=
  [ (patScript, "Potential XSS attempt detected"),
    (patJs, "Potential JavaScript injection detected"),
    (patSql, "Potential SQL injection detected") ]

/-- First failing suspicious rule, in table order. -/
def firstFailure : List (Rx × String) → List Char → Option String
  | [], _ => none
  | (r, msg) :: rest, s => if reSearch r s then some msg else firstFailure rest s

/-- validate_input_safety from src/safety.py: empty-or-whitespace check,
then the length check, then the suspicious rules in order, first match
winning; (true, empty string) on success. -/
def validate_input_safety (text : String) (max_length : ℕ := 50000) : Bool × String :=
  if text = "" ∨ text.data.all pySpace then (false, "Input text is empty")
  else if max_length < text.length then
    (false, "Input exceeds maximum length of " ++ toString max_length ++ " characters")
  else
    match firstFailure suspicious_patterns text.data with
    | some msg => (false, msg)
    | none => (true, "")

/-! ## llm.py -/

/-- The critical-risk secret-exposure template of MockLLM.complete. -/
def mockSecretTemplate : String :=
  "**CRITICAL RISK DETECTED**\n\nPotential secret exposure identified in the changes.\n\n**Top 3 Actions:**\n1. Immediately rotate any exposed credentials\n2. Add detect-secrets pre-commit hook to prevent future leaks\n3. Update .gitignore to exclude sensitive files\n\n**Compliance Impact:** High - May violate security policies"

/-- The high-risk security-vulnerability template of MockLLM.complete. -/
def mockVulnTemplate : String :=
  "**HIGH RISK - Security Vulnerability**\n\nPotential security vulnerability detected.\n\n**Top 3 Actions:**\n1. Conduct security review with AppSec team\n2. Run SAST/DAST security scans\n3. Apply security patches and validate fixes\n\n**Blast Radius:** Medium - May affect user data or system integrity"

/-- The medium-risk data-operations template of MockLLM.complete. -/
def mockDataTemplate : String :=
  "**MEDIUM RISK - Data Operations**\n\nChanges involve database operations that require careful review.\n\n**Top 3 Actions:**\n1. Ensure database migrations are reversible\n2. Test in staging environment first\n3. Plan for rollback procedures\n\n**Severity:** Medium"

/-- The low-risk default template of MockLLM.complete. -/
def mockLowTemplate : String :=
  "**LOW RISK**\n\nNo critical security or compliance risks detected in the changes.\n\n**Recommended Actions:**\n1. Ensure code owner review is completed\n2. Run full test suite including integration tests\n3. Verify changes align with architectural guidelines\n\n**Assessment:** Changes appear standard and low-risk"

/-- Python's any(kw in prompt_lower for kw in kws). -/
def containsAny (hay : List Char) (kws : List String) : Bool :=
  kws.any (fun kw => containsSub kw.data hay)

namespace MockLLM

/-- MockLLM.complete from src/llm.py: lower-case the prompt once, then
return the first template whose keyword group has a member occurring in the
lowered prompt, in source order; the max_tokens and temperature parameters
are accepted but unused, exactly as in the source. -/
def complete (prompt : String) (max_tokens : ℕ := 1000) (temperature : ℤ := 0) : String :=
  let prompt_lower := prompt.data.map Char.toLower
  if containsAny prompt_lower ["secret", "api key", "credential", "password"] then
    mockSecretTemplate
  else if containsAny prompt_lower ["breach", "vulnerability", "exploit", "injection"] then
    mockVulnTemplate
  else if containsAny prompt_lower ["database", "deletion", "drop table"] then
    mockDataTemplate
  else
    mockLowTemplate

end MockLLM

/-- The concrete backend produced by the get_llm factory: either the
deterministic offline MockLLM, or the OpenAI placeholder holding its
api_key and model name. -/
inductive LLMBackend where
  | mock
  | openai (api_key : String) (model : String)
deriving DecidableEq

deriving instance DecidableEq for Except

/-- get_llm from src/llm.py.  Raising ValueError at construction is
modelled as Except.error carrying the message; Python's falsy test
not api_key treats both an absent and an empty api_key as missing, and
model or gpt-4 treats both an absent and an empty model name as the
default. -/
def get_llm (provider : String := "mock") (api_key : Option String := none)
    (model : Option String := none) : Except String LLMBackend :=
  let provider_lower := String.mk (provider.data.map Char.toLower)
  if provider_lower = "mock" then Except.ok LLMBackend.mock
  else if provider_lower = "openai" then
    if api_key.getD "" = "" then Except.error "OpenAI provider requires api_key"
    else Except.ok (LLMBackend.openai (api_key.getD "")
      (if model.getD "" = "" then "gpt-4" else model.getD ""))
  else Except.error ("Unknown LLM provider: " ++ provider)

/-! ## Helper lemmas -/

/-- Rounding a float addition preserves nonnegativity. -/
theorem flZ_nonneg (k : ℤ) (h : 0 ≤ k) : 0 ≤ flZ k := by
  unfold flZ
  split
  · exact h
  · exact Int.natCast_nonneg _

/-- The score accumulator of score_risk stays nonnegative when started
nonnegative on a table of nonnegative weights. -/
theorem foldl_flZ_nonneg (lower : List Char) :
    ∀ (l : List (String × ℤ × String)) (acc : ℤ), 0 ≤ acc → (∀ kw ∈ l, 0 ≤ kw.2.1) →
    0 ≤ l.foldl (fun acc kw => if containsSub kw.1.data lower then flZ (acc + kw.2.1) else acc) acc := by
  intro l
  induction l with
  | nil => intro acc hacc _; exact hacc
  | cons hd tl ih =>
    intro acc hacc hw
    simp only [List.foldl_cons]
    apply ih
    · split
      · exact flZ_nonneg _ (add_nonneg hacc (hw hd (List.mem_cons_self hd tl)))
      · exact hacc
    · intro kw hkw
      exact hw kw (List.mem_cons_of_mem hd hkw)

/-- The running total of score_risk is nonnegative for every summary. -/
theorem riskTotal_nonneg (s : String) : 0 ≤ riskTotal s := by
  unfold riskTotal
  exact foldl_flZ_nonneg _ RISK_KEYWORDS 0 le_rfl (by decide)

/-- The threshold ladder of get_risk_level, over arbitrary ordered
thresholds: each of the four answers is returned exactly on its band. -/
theorem ladder_general (t3 t5 t7 s : ℤ) (h35 : t3 < t5) (h57 : t5 < t7) :
    (((if t7 ≤ s then "critical" else if t5 ≤ s then "high"
        else if t3 ≤ s then "medium" else "low") = "critical") ↔ t7 ≤ s) ∧
    (((if t7 ≤ s then "critical" else if t5 ≤ s then "high"
        else if t3 ≤ s then "medium" else "low") = "high") ↔ t5 ≤ s ∧ s < t7) ∧
    (((if t7 ≤ s then "critical" else if t5 ≤ s then "high"
        else if t3 ≤ s then "medium" else "low") = "medium") ↔ t3 ≤ s ∧ s < t5) ∧
    (((if t7 ≤ s then "critical" else if t5 ≤ s then "high"
        else if t3 ≤ s then "medium" else "low") = "low") ↔ s < t3) := by
  split_ifs with h1 h2 h3 <;> simp <;> omega

/-- re.sub leaves a text without any match of the pattern unchanged. -/
theorem scanSub_no_match (r : Rx) (repl : List Char) :
    ∀ (s : List Char) (prev : Option Char) (g : ℕ),
      existsMatch r prev s = false → scanSub r repl g prev s = s := by
  intro s
  induction s with
  | nil =>
    intro prev g h
    match g with
    | 0 => rfl
    | g + 1 =>
      unfold existsMatch at h
      have hn : tryMatchAt r prev [] = none := by
        cases htm : tryMatchAt r prev [] with
        | none => rfl
        | some v => rw [htm] at h; simp at h
      unfold scanSub
      rw [hn]
  | cons c cs ih =>
    intro prev g h
    unfold existsMatch at h
    simp only [Bool.or_eq_false_iff] at h
    match g with
    | 0 => rfl
    | g + 1 =>
      have hn : tryMatchAt r prev (c :: cs) = none := by
        cases htm : tryMatchAt r prev (c :: cs) with
        | none => rfl
        | some v => rw [htm] at h; simp at h
      unfold scanSub
      rw [hn]
      show c :: scanSub r repl g (some c) cs = c :: cs
      rw [ih (some c) g h.2]

/-- The pattern fold of mask_pii leaves a text without any match of any
listed pattern unchanged. -/
theorem foldl_subAll_no_match (keep : Bool) (t : List Char) :
    ∀ pats : List (Rx × String), (∀ pr ∈ pats, existsMatch pr.1 none t = false) →
    pats.foldl (fun acc pr => subAll pr.1 (redactionMarker pr.2 keep) acc) t = t := by
  intro pats
  induction pats with
  | nil => intro _; rfl
  | cons hd tl ih =>
    intro h
    simp only [List.foldl_cons]
    have hhd : subAll hd.1 (redactionMarker hd.2 keep) t = t :=
      scanSub_no_match hd.1 _ t none (t.length + 1) (h hd (List.mem_cons_self hd tl))
    rw [hhd]
    exact ih (fun pr hpr => h pr (List.mem_cons_of_mem hd hpr))

/-! ## The claims -/

/-- C1: for every non-empty narrative, score_risk lower-cases once, adds
the weight of every matching rule of RISK_KEYWORDS in table order with no
deduplication (the accumulation riskTotal), and returns min(total, 1.0);
the result lies in [0.0, 1.0] (here in units of 2 ^ (-56): in
[0, dbl 1 1] with dbl 1 1 = 2 ^ 56 the float 1.0), however often
high-weight keywords repeat. -/
theorem score_risk_saturates (s : String) (h : s ≠ "") :
    score_risk s = some (min (riskTotal s) (dbl 1 1)) ∧
    0 ≤ min (riskTotal s) (dbl 1 1) ∧ min (riskTotal s) (dbl 1 1) ≤ dbl 1 1 := by
  refine ⟨by simp [score_risk, h], ?_, min_le_right _ _⟩
  exact le_min (riskTotal_nonneg s) (by decide)

/-- Witness for C1 at the concrete narrative "x". -/
theorem score_risk_saturates_witness :
    ("x" ≠ "") ∧
    (score_risk "x" = some (min (riskTotal "x") (dbl 1 1)) ∧
      0 ≤ min (riskTotal "x") (dbl 1 1) ∧ min (riskTotal "x") (dbl 1 1) ≤ dbl 1 1) :=
  ⟨by decide, score_risk_saturates "x" (by decide)⟩

/-- C2: get_risk_level is total with no gaps: every score lands in exactly
one band of the high-to-low threshold ladder, boundaries inclusive on the
lower edge; at the threshold floats themselves (the binary64 values of the
literals 0.3, 0.5, 0.7) the answers are medium, high, critical. -/
theorem get_risk_level_ladder :
    (∀ s : ℤ,
      (get_risk_level s = "critical" ↔ dbl 7 10 ≤ s) ∧
      (get_risk_level s = "high" ↔ dbl 5 10 ≤ s ∧ s < dbl 7 10) ∧
      (get_risk_level s = "medium" ↔ dbl 3 10 ≤ s ∧ s < dbl 5 10) ∧
      (get_risk_level s = "low" ↔ s < dbl 3 10)) ∧
    get_risk_level (dbl 3 10) = "medium" ∧
    get_risk_level (dbl 5 10) = "high" ∧
    get_risk_level (dbl 7 10) = "critical" := by
  refine ⟨fun s => ?_, by decide, by decide, by decide⟩
  have h := ladder_general (dbl 3 10) (dbl 5 10) (dbl 7 10) s (by decide) (by decide)
  exact h

/-- C3 counterexample: a whitespace-only narrative does not make
score_risk fail; it scores 0.0 (Python's falsy test "not summary" accepts
a narrative consisting of whitespace). -/
theorem score_risk_whitespace_scores :
    score_risk " " = some 0 := by decide

/-- C3 amended: score_risk fails exactly on the empty narrative; a
whitespace-only narrative is scored (with score 0.0 when no keyword
matches). -/
theorem score_risk_empty_only :
    (∀ s : String, score_risk s = none ↔ s = "") ∧
    score_risk "" = none ∧ score_risk " " = some 0 := by
  refine ⟨fun s => ?_, by decide, by decide⟩
  unfold score_risk
  split_ifs with h <;> simp [h]

/-- C4 counterexample: mask_pii is not idempotent for every non-empty
input under the default keep_patterns.  On this input the first pass
redacts the AWS access key, and the bracket of the marker creates a word
boundary that lets the nine-digit SSN pattern match on the second pass. -/
theorem mask_pii_not_idempotent :
    mask_pii "AKIABBBBBBBBBBBBBBBB123456789" = some "[REDACTED]123456789" ∧
    mask_pii "[REDACTED]123456789" = some "[REDACTED][REDACTED]" ∧
    Option.bind (mask_pii "AKIABBBBBBBBBBBBBBBB123456789") (fun t => mask_pii t) ≠
      mask_pii "AKIABBBBBBBBBBBBBBBB123456789" := by decide

/-- C4 amended: a second mask_pii pass is a no-op on inputs whose
once-redacted form matches no pattern — e.g. the specification's scenario
input stabilizes after one pass with both literals gone — but this is not
guaranteed for every non-empty input (see the counterexample, where a
replacement enables an earlier pattern on the second pass). -/
theorem mask_pii_second_pass_scenario :
    mask_pii "SSN 123-45-6789 and api_key=ABCD1234EFGH5678" =
      some "SSN [REDACTED] and [REDACTED]" ∧
    Option.bind (mask_pii "SSN 123-45-6789 and api_key=ABCD1234EFGH5678") (fun t => mask_pii t) =
      mask_pii "SSN 123-45-6789 and api_key=ABCD1234EFGH5678" := by decide

/-- C5: validate_input_safety applies its checks in a fixed order with the
first failure winning: empty-or-whitespace, then the length bound, then
the three suspicious rules (script tag, javascript scheme, SQL pattern) in
table order; when nothing fails it returns (true, empty reason). -/
theorem validate_input_safety_first_failure (t : String) (m : ℕ) :
    ((t = "" ∨ t.data.all pySpace) →
      validate_input_safety t m = (false, "Input text is empty")) ∧
    (¬(t = "" ∨ t.data.all pySpace) → m < t.length →
      validate_input_safety t m =
        (false, "Input exceeds maximum length of " ++ toString m ++ " characters")) ∧
    (¬(t = "" ∨ t.data.all pySpace) → ¬(m < t.length) → reSearch patScript t.data = true →
      validate_input_safety t m = (false, "Potential XSS attempt detected")) ∧
    (¬(t = "" ∨ t.data.all pySpace) → ¬(m < t.length) → reSearch patScript t.data = false →
      reSearch patJs t.data = true →
      validate_input_safety t m = (false, "Potential JavaScript injection detected")) ∧
    (¬(t = "" ∨ t.data.all pySpace) → ¬(m < t.length) → reSearch patScript t.data = false →
      reSearch patJs t.data = false → reSearch patSql t.data = true →
      validate_input_safety t m = (false, "Potential SQL injection detected")) ∧
    (¬(t = "" ∨ t.data.all pySpace) → ¬(m < t.length) → reSearch patScript t.data = false →
      reSearch patJs t.data = false → reSearch patSql t.data = false →
      validate_input_safety t m = (true, "")) := by
  refine ⟨?_, ?_, ?_, ?_, ?_, ?_⟩
  · intro h
    unfold validate_input_safety
    rw [if_pos h]
  · intro h hlen
    unfold validate_input_safety
    rw [if_neg h, if_pos hlen]
  · intro h hlen hs
    unfold validate_input_safety
    rw [if_neg h, if_neg hlen]
    simp [firstFailure, suspicious_patterns, hs]
  · intro h hlen hs hj
    unfold validate_input_safety
    rw [if_neg h, if_neg hlen]
    simp [firstFailure, suspicious_patterns, hs, hj]
  · intro h hlen hs hj hq
    unfold validate_input_safety
    rw [if_neg h, if_neg hlen]
    simp [firstFailure, suspicious_patterns, hs, hj, hq]
  · intro h hlen hs hj hq
    unfold validate_input_safety
    rw [if_neg h, if_neg hlen]
    simp [firstFailure, suspicious_patterns, hs, hj, hq]

/-- Witness for C5: the specification's XSS scenario takes the third
branch. -/
theorem validate_input_safety_first_failure_witness :
    (¬("<script>alert(1)</script>" = "" ∨ "<script>alert(1)</script>".data.all pySpace)) ∧
    (¬(50000 < "<script>alert(1)</script>".length)) ∧
    reSearch patScript "<script>alert(1)</script>".data = true ∧
    validate_input_safety "<script>alert(1)</script>" 50000 =
      (false, "Potential XSS attempt detected") :=
  ⟨by decide, by decide, by decide,
    (validate_input_safety_first_failure "<script>alert(1)</script>" 50000).2.2.1
      (by decide) (by decide) (by decide)⟩

/-- C6: MockLLM.complete lower-cases the prompt and returns exactly one of
the four fixed templates, chosen by first-matching keyword group in
precedence order: secrets, then security vulnerabilities, then data
operations, then the low-risk default. -/
theorem mockllm_complete_templates (p : String) (mt : ℕ) (temp : ℤ) :
    (containsAny (p.data.map Char.toLower) ["secret", "api key", "credential", "password"] = true →
      MockLLM.complete p mt temp = mockSecretTemplate) ∧
    (containsAny (p.data.map Char.toLower) ["secret", "api key", "credential", "password"] = false →
      containsAny (p.data.map Char.toLower) ["breach", "vulnerability", "exploit", "injection"] = true →
      MockLLM.complete p mt temp = mockVulnTemplate) ∧
    (containsAny (p.data.map Char.toLower) ["secret", "api key", "credential", "password"] = false →
      containsAny (p.data.map Char.toLower) ["breach", "vulnerability", "exploit", "injection"] = false →
      containsAny (p.data.map Char.toLower) ["database", "deletion", "drop table"] = true →
      MockLLM.complete p mt temp = mockDataTemplate) ∧
    (containsAny (p.data.map Char.toLower) ["secret", "api key", "credential", "password"] = false →
      containsAny (p.data.map Char.toLower) ["breach", "vulnerability", "exploit", "injection"] = false →
      containsAny (p.data.map Char.toLower) ["database", "deletion", "drop table"] = false →
      MockLLM.complete p mt temp = mockLowTemplate) ∧
    (MockLLM.complete p mt temp = mockSecretTemplate ∨
      MockLLM.complete p mt temp = mockVulnTemplate ∨
      MockLLM.complete p mt temp = mockDataTemplate ∨
      MockLLM.complete p mt temp = mockLowTemplate) := by
  refine ⟨?_, ?_, ?_, ?_, ?_⟩
  · intro h1; simp [MockLLM.complete, h1]
  · intro h1 h2; simp [MockLLM.complete, h1, h2]
  · intro h1 h2 h3; simp [MockLLM.complete, h1, h2, h3]
  · intro h1 h2 h3; simp [MockLLM.complete, h1, h2, h3]
  · cases h1 : containsAny (p.data.map Char.toLower) ["secret", "api key", "credential", "password"] <;>
    cases h2 : containsAny (p.data.map Char.toLower) ["breach", "vulnerability", "exploit", "injection"] <;>
    cases h3 : containsAny (p.data.map Char.toLower) ["database", "deletion", "drop table"] <;>
      simp [MockLLM.complete, h1, h2, h3]

/-- Witness for C6: a prompt mentioning an api key takes the first
(critical secret-exposure) template. -/
theorem mockllm_complete_templates_witness :
    containsAny ("Found api key in code".data.map Char.toLower)
      ["secret", "api key", "credential", "password"] = true ∧
    MockLLM.complete "Found api key in code" 1000 0 = mockSecretTemplate :=
  ⟨by decide, (mockllm_complete_templates "Found api key in code" 1000 0).1 (by decide)⟩

/-- C7: the specification's boundary scenario.  The narrative matches
exactly the rotate, patch and fix rules; the float accumulation
0.2 + 0.2 + 0.1 rounds to exactly the binary64 value 0.5 (2 ^ 55 units of
2 ^ (-56), not anything below it), and that score classifies as high, the
inclusive lower boundary of the high band. -/
theorem remediation_boundary_scenario :
    matched_keywords "Rotate keys and apply patch to fix the issue" = ["rotate", "patch", "fix"] ∧
    score_risk "Rotate keys and apply patch to fix the issue" = some (dbl 5 10) ∧
    dbl 5 10 = 2 ^ 55 ∧
    get_risk_level (dbl 5 10) = "high" := by decide

/-- C8: the get_llm factory returns the deterministic offline backend for
the mock provider, fails eagerly (at construction, as a factory result)
with a configuration error when the openai provider has no credential, and
fails for every unrecognized provider. -/
theorem get_llm_factory (p : String) (k mo : Option String) :
    get_llm "mock" k mo = Except.ok LLMBackend.mock ∧
    get_llm "openai" none mo = Except.error "OpenAI provider requires api_key" ∧
    (String.mk (p.data.map Char.toLower) ≠ "mock" →
      String.mk (p.data.map Char.toLower) ≠ "openai" →
      get_llm p k mo = Except.error ("Unknown LLM provider: " ++ p)) := by
  refine ⟨rfl, rfl, fun h1 h2 => ?_⟩
  unfold get_llm
  rw [if_neg h1, if_neg h2]

/-- Witness for C8 at the unrecognized provider "anthropic". -/
theorem get_llm_factory_witness :
    String.mk ("anthropic".data.map Char.toLower) ≠ "mock" ∧
    String.mk ("anthropic".data.map Char.toLower) ≠ "openai" ∧
    get_llm "anthropic" (some "sk-1") (some "m") =
      Except.error "Unknown LLM provider: anthropic" :=
  ⟨by decide, by decide,
    (get_llm_factory "anthropic" (some "sk-1") (some "m")).2.2 (by decide) (by decide)⟩

/-- C9: mask_pii neither fails nor changes a non-empty text in which no
PII pattern matches anywhere. -/
theorem mask_pii_no_match_unchanged (t : String) (h1 : t ≠ "")
    (h2 : ∀ pr ∈ PII_PATTERNS, existsMatch pr.1 none t.data = false) :
    mask_pii t = some t := by
  unfold mask_pii
  rw [if_neg h1, foldl_subAll_no_match false t.data PII_PATTERNS h2]

/-- Witness for C9 at a concrete match-free text. -/
theorem mask_pii_no_match_unchanged_witness :
    ("ok" ≠ "") ∧ (∀ pr ∈ PII_PATTERNS, existsMatch pr.1 none "ok".data = false) ∧
    mask_pii "ok" = some "ok" :=
  ⟨by decide, by decide, mask_pii_no_match_unchanged "ok" (by decide) (by decide)⟩

/-- C10: the output of MockLLM.complete depends only on the prompt; the
max_tokens and temperature arguments have no influence. -/
theorem mockllm_complete_ignores_options (p : String) (mt1 mt2 : ℕ) (t1 t2 : ℤ) :
    MockLLM.complete p mt1 t1 = MockLLM.complete p mt2 t2 := rfl
